import Mathlib

/-
Verification of the Authentication Coordination Core of the DrYouu web
repository: a shallow embedding of the WebAuthn module, the OAuth2 module
and the AuthManager, together with theorems settling the specification
claims about them.

Modelling conventions used throughout:
- JavaScript byte buffers (Uint8Array / ArrayBuffer) are `List Nat` whose
  elements are below 256 (stated as a hypothesis where it matters).
- `localStorage` slots become explicit record fields threaded through the
  functions that read or write them; a function with storage side effects
  returns the new storage next to its result.
- Fallible code (JavaScript `throw`) returns `Except`.
- Calls to platform facilities that are external to the repository
  (crypto randomness, SHA-256 digest, navigator.credentials) are passed
  in as explicit arguments, so a theorem quantifying over them states
  that the result does not depend on the external facility.
- Times are naturals (milliseconds, as produced by Date.now()).
-/

/-! ## Base64 transport encoding (WebAuthnAuth.arrayBufferToBase64 / base64ToArrayBuffer)

The source converts a byte buffer to a binary string and applies btoa,
and back with atob.  We embed btoa/atob directly on byte lists. -/

/-- The 64-character alphabet used by btoa / atob. -/
def base64Alphabet : List Char :=
  ("ABCDEFGHIJKLMNOPQRSTUVWXYZabcdefghijklmnopqrstuvwxyz0123456789+/").toList

/-- Character for a sextet value (btoa encoding table). -/
def b64c (n : Nat) : Char := base64Alphabet.getD n 'A'

/-- Sextet value of a base64 character (atob decoding table). -/
def b64v (ch : Char) : Nat := base64Alphabet.indexOf ch

/-- btoa on a byte list: encode groups of three bytes into four
characters, padding the final partial group with one or two `=`. -/
def b64EncodeBytes : List Nat → List Char
  | [] => []
  | [a] => [b64c (a / 4), b64c (a % 4 * 16), '=', '=']
  | [a, b] => [b64c (a / 4), b64c (a % 4 * 16 + b / 16), b64c (b % 16 * 4), '=']
  | a :: b :: d :: rest =>
      b64c (a / 4) :: b64c (a % 4 * 16 + b / 16) ::
      b64c (b % 16 * 4 + d / 64) :: b64c (d % 64) :: b64EncodeBytes rest

/-- atob on a character list: decode groups of four characters into three
bytes, honouring `=` padding.  Inputs that are not valid btoa output
(atob would throw on them) decode to the bytes of their valid prefix. -/
def b64DecodeChars : List Char → List Nat
  | w :: x :: y :: z :: rest =>
      if y = '=' then
        [b64v w * 4 + b64v x / 16]
      else if z = '=' then
        [b64v w * 4 + b64v x / 16, b64v x % 16 * 16 + b64v y / 4]
      else
        (b64v w * 4 + b64v x / 16) :: (b64v x % 16 * 16 + b64v y / 4) ::
        (b64v y % 4 * 64 + b64v z) :: b64DecodeChars rest
  | _ => []

/-- WebAuthnAuth.arrayBufferToBase64: bytes to base64 string via btoa. -/
def WebAuthnAuth.arrayBufferToBase64 (buffer : List Nat) : String :=
  String.mk (b64EncodeBytes buffer)

/-- WebAuthnAuth.base64ToArrayBuffer: base64 string to bytes via atob. -/
def WebAuthnAuth.base64ToArrayBuffer (base64 : String) : List Nat :=
  b64DecodeChars base64.toList

theorem b64v_b64c : ∀ n, n < 64 → b64v (b64c n) = n := by decide

theorem b64c_ne_pad : ∀ n, n < 64 → b64c n ≠ '=' := by decide

theorem b64_arith1 (a b : Nat) (hb : b < 256) :
    a / 4 * 4 + (a % 4 * 16 + b / 16) / 16 = a := by
  have h1 : b / 16 < 16 := by omega
  rw [mul_comm (a % 4) 16, Nat.mul_add_div (by norm_num), Nat.div_eq_of_lt h1]
  omega

theorem b64_arith2 (a b d : Nat) (hb : b < 256) (hd : d < 256) :
    (a % 4 * 16 + b / 16) % 16 * 16 + (b % 16 * 4 + d / 64) / 4 = b := by
  have h1 : b / 16 < 16 := by omega
  have h2 : d / 64 < 4 := by omega
  rw [mul_comm (a % 4) 16, Nat.mul_add_mod, Nat.mod_eq_of_lt h1,
    mul_comm (b % 16) 4, Nat.mul_add_div (by norm_num), Nat.div_eq_of_lt h2]
  omega

theorem b64_arith3 (b d : Nat) (hd : d < 256) :
    (b % 16 * 4 + d / 64) % 4 * 64 + d % 64 = d := by
  have h2 : d / 64 < 4 := by omega
  rw [mul_comm (b % 16) 4, Nat.mul_add_mod, Nat.mod_eq_of_lt h2]
  omega

theorem b64_decode_encode :
    ∀ (l : List Nat), (∀ x ∈ l, x < 256) → b64DecodeChars (b64EncodeBytes l) = l
  | [], _ => rfl
  | [a], h => by
      have ha : a < 256 := h a (by simp)
      have h1 : a / 4 < 64 := by omega
      have h2 : a % 4 * 16 < 64 := by omega
      simp only [b64EncodeBytes, b64DecodeChars, if_pos rfl,
        b64v_b64c _ h1, b64v_b64c _ h2, List.cons.injEq, and_true]
      have := b64_arith1 a 0 (by norm_num)
      simpa using this
  | [a, b], h => by
      have ha : a < 256 := h a (by simp)
      have hb : b < 256 := h b (by simp)
      have h1 : a / 4 < 64 := by omega
      have h2 : a % 4 * 16 + b / 16 < 64 := by omega
      have h3 : b % 16 * 4 < 64 := by omega
      simp only [b64EncodeBytes, b64DecodeChars, if_neg (b64c_ne_pad _ h3), if_pos rfl,
        if_true, b64v_b64c _ h1, b64v_b64c _ h2, b64v_b64c _ h3, List.cons.injEq, and_true]
      have g1 := b64_arith1 a b hb
      have g2 := b64_arith2 a b 0 hb (by norm_num)
      constructor
      · exact g1
      · simpa using g2
  | a :: b :: d :: rest, h => by
      have ha : a < 256 := h a (by simp)
      have hb : b < 256 := h b (by simp)
      have hd : d < 256 := h d (by simp)
      have ih := b64_decode_encode rest (fun x hx => h x (by simp [hx]))
      have h1 : a / 4 < 64 := by omega
      have h2 : a % 4 * 16 + b / 16 < 64 := by omega
      have h3 : b % 16 * 4 + d / 64 < 64 := by omega
      have h4 : d % 64 < 64 := by omega
      simp only [b64EncodeBytes, b64DecodeChars,
        if_neg (b64c_ne_pad _ h3), if_neg (b64c_ne_pad _ h4),
        b64v_b64c _ h1, b64v_b64c _ h2, b64v_b64c _ h3, b64v_b64c _ h4,
        ih, List.cons.injEq, and_true]
      exact ⟨b64_arith1 a b hb, b64_arith2 a b d hb hd, b64_arith3 b d hd⟩

/-- C10: the transport encoding of binary fields round-trips: decoding the
base64 encoding of any byte buffer recovers the buffer exactly, so
credential ids stored in encoded form are rebuilt exactly for an
assertion request. -/
theorem base64_roundtrip (b : List Nat) (h : ∀ x ∈ b, x < 256) :
    WebAuthnAuth.base64ToArrayBuffer (WebAuthnAuth.arrayBufferToBase64 b) = b := by
  unfold WebAuthnAuth.base64ToArrayBuffer WebAuthnAuth.arrayBufferToBase64
  have : (String.mk (b64EncodeBytes b)).toList = b64EncodeBytes b := rfl
  rw [this]
  exact b64_decode_encode b h

theorem base64_roundtrip_witness :
    WebAuthnAuth.base64ToArrayBuffer
      (WebAuthnAuth.arrayBufferToBase64 [0, 1, 77, 255, 128]) = [0, 1, 77, 255, 128] :=
  base64_roundtrip [0, 1, 77, 255, 128] (by decide)

/-! ## OAuth2Auth: state and PKCE generation

generateState and the verifier half of generatePKCE hex-encode 32
cryptographically random bytes (byte.toString(16).padStart(2, '0'),
joined); the randomness is an explicit byte-list argument here.  The
challenge half applies btoa to the SHA-256 digest of the verifier string
and then rewrites the result to the url-safe alphabet; the digest
function is an explicit argument (crypto.subtle is a platform facility). -/

/-- The sixteen lowercase hex digit characters used by toString(16). -/
def hexAlphabet : List Char := ("0123456789abcdef").toList

/-- Hex digit character for a value below 16. -/
def hexDigitChar (n : Nat) : Char := hexAlphabet.getD n '0'

/-- One byte as two lowercase hex characters; equals
byte.toString(16).padStart(2, '0') for bytes below 256. -/
def byteToHex (b : Nat) : List Char := [hexDigitChar (b / 16), hexDigitChar (b % 16)]

/-- Hex encoding of a byte list, as produced by
Array.from(bytes, b => b.toString(16).padStart(2, '0')).join(''). -/
def hexEncode (bytes : List Nat) : String := String.mk (bytes.map byteToHex).flatten

/-- OAuth2Auth.generateState: hex encoding of the 32 random bytes drawn
for CSRF protection. -/
def OAuth2Auth.generateState (rnd : List Nat) : String := hexEncode rnd

/-- The replace chain applied to btoa output in generatePKCE:
plus to minus, slash to underscore, drop padding. -/
def base64UrlOfChars (cs : List Char) : List Char :=
  (((cs.map fun ch => if ch = '+' then '-' else ch).map
      fun ch => if ch = '/' then '_' else ch).filter fun ch => ch ≠ '=')

/-- RFC 3986 unreserved characters (letters, digits, minus, dot,
underscore, tilde); the character class named by the specification. -/
def unreservedChar (c : Char) : Bool :=
  c.isAlpha || c.isDigit || c = '-' || c = '.' || c = '_' || c = '~'

/-- OAuth2Auth.generatePKCE: the verifier is the hex encoding of 32
random bytes, the challenge is the url-safe base64 of the SHA-256 digest
of the verifier string.  rnd models crypto.getRandomValues and sha256
models crypto.subtle.digest. -/
def OAuth2Auth.generatePKCE (rnd : List Nat) (sha256 : String → List Nat) :
    String × String :=
  let codeVerifier := hexEncode rnd
  let codeChallenge := String.mk (base64UrlOfChars (b64EncodeBytes (sha256 codeVerifier)))
  (codeVerifier, codeChallenge)

/-- The url-safe base64 alphabet, written directly (specification view
of base64url): the standard alphabet with minus and underscore in the
last two positions, and no padding. -/
def base64UrlAlphabet : List Char :=
  ("ABCDEFGHIJKLMNOPQRSTUVWXYZabcdefghijklmnopqrstuvwxyz0123456789-_").toList

/-- Character for a sextet value in the url-safe alphabet. -/
def b64uc (n : Nat) : Char := base64UrlAlphabet.getD n 'A'

/-- Direct unpadded base64url encoding of a byte list, following the
specification words codeChallenge = base64url(SHA-256(codeVerifier)). -/
def base64UrlEncodeSpec : List Nat → List Char
  | [] => []
  | [a] => [b64uc (a / 4), b64uc (a % 4 * 16)]
  | [a, b] => [b64uc (a / 4), b64uc (a % 4 * 16 + b / 16), b64uc (b % 16 * 4)]
  | a :: b :: d :: rest =>
      b64uc (a / 4) :: b64uc (a % 4 * 16 + b / 16) ::
      b64uc (b % 16 * 4 + d / 64) :: b64uc (d % 64) :: base64UrlEncodeSpec rest

theorem b64c_url : ∀ n, n < 64 →
    (if (if b64c n = '+' then '-' else b64c n) = '/' then '_'
     else if b64c n = '+' then '-' else b64c n) = b64uc n := by decide

theorem b64uc_ne_pad : ∀ n, n < 64 → b64uc n ≠ '=' := by decide

/-- The replace chain over btoa output agrees with the direct unpadded
url-safe encoding, for every byte list. -/
theorem base64UrlOfChars_b64EncodeBytes :
    ∀ (l : List Nat), (∀ x ∈ l, x < 256) →
      base64UrlOfChars (b64EncodeBytes l) = base64UrlEncodeSpec l
  | [], _ => rfl
  | [a], h => by
      have ha : a < 256 := h a (by simp)
      have h1 : a / 4 < 64 := by omega
      have h2 : a % 4 * 16 < 64 := by omega
      simp only [b64EncodeBytes, base64UrlOfChars, base64UrlEncodeSpec,
        List.map_cons, List.map_nil, List.filter_cons, List.filter_nil]
      simp only [b64c_url _ h1, b64c_url _ h2]
      simp [b64uc_ne_pad _ h1, b64uc_ne_pad _ h2]
  | [a, b], h => by
      have ha : a < 256 := h a (by simp)
      have hb : b < 256 := h b (by simp)
      have h1 : a / 4 < 64 := by omega
      have h2 : a % 4 * 16 + b / 16 < 64 := by omega
      have h3 : b % 16 * 4 < 64 := by omega
      simp only [b64EncodeBytes, base64UrlOfChars, base64UrlEncodeSpec,
        List.map_cons, List.map_nil, List.filter_cons, List.filter_nil]
      simp only [b64c_url _ h1, b64c_url _ h2, b64c_url _ h3]
      simp [b64uc_ne_pad _ h1, b64uc_ne_pad _ h2, b64uc_ne_pad _ h3]
  | a :: b :: d :: rest, h => by
      have ha : a < 256 := h a (by simp)
      have hb : b < 256 := h b (by simp)
      have hd : d < 256 := h d (by simp)
      have ih := base64UrlOfChars_b64EncodeBytes rest (fun x hx => h x (by simp [hx]))
      have h1 : a / 4 < 64 := by omega
      have h2 : a % 4 * 16 + b / 16 < 64 := by omega
      have h3 : b % 16 * 4 + d / 64 < 64 := by omega
      have h4 : d % 64 < 64 := by omega
      simp only [base64UrlOfChars] at ih
      simp only [b64EncodeBytes, base64UrlOfChars, base64UrlEncodeSpec,
        List.map_cons, List.filter_cons]
      simp only [b64c_url _ h1, b64c_url _ h2, b64c_url _ h3, b64c_url _ h4]
      simp only [List.map_map, ne_eq, decide_not] at ih
      simp [b64uc_ne_pad _ h1, b64uc_ne_pad _ h2, b64uc_ne_pad _ h3,
        b64uc_ne_pad _ h4, ih]

theorem hexFlatten_length :
    ∀ (l : List Nat), ((l.map byteToHex).flatten).length = 2 * l.length
  | [] => rfl
  | b :: rest => by
      simp only [List.map_cons, List.flatten_cons, List.length_append,
        hexFlatten_length rest, byteToHex, List.length_cons, List.length_nil]
      omega

theorem hexDigitChar_unreserved (n : Nat) : unreservedChar (hexDigitChar n) = true := by
  rcases Nat.lt_or_ge n 16 with hlt | hge
  · revert hlt
    revert n
    decide
  · have : hexAlphabet.length ≤ n := by
      simpa [hexAlphabet] using hge
    rw [hexDigitChar, List.getD_eq_default _ _ this]
    decide

theorem hexFlatten_unreserved (l : List Nat) :
    ∀ c ∈ (l.map byteToHex).flatten, unreservedChar c = true := by
  intro c hc
  rw [List.mem_flatten] at hc
  obtain ⟨chunk, hchunk, hcmem⟩ := hc
  rw [List.mem_map] at hchunk
  obtain ⟨b, _, rfl⟩ := hchunk
  simp only [byteToHex, List.mem_cons, List.mem_singleton, List.not_mem_nil] at hcmem
  rcases hcmem with rfl | rfl | h
  · exact hexDigitChar_unreserved _
  · exact hexDigitChar_unreserved _
  · exact absurd h (by simp)

/-- C4: every PKCE pair produced by generatePKCE has
codeChallenge = base64url(SHA-256(codeVerifier)), and the codeVerifier
is a 64-character string (within the required 43 to 128) made only of
unreserved characters.  rnd models the 32 random bytes drawn by the
generator and sha256 models the platform SHA-256 digest (whose output
bytes are below 256). -/
theorem generatePKCE_spec (rnd : List Nat) (sha256 : String → List Nat)
    (hlen : rnd.length = 32)
    (hsha : ∀ x ∈ sha256 (OAuth2Auth.generatePKCE rnd sha256).1, x < 256) :
    (OAuth2Auth.generatePKCE rnd sha256).2 =
      String.mk (base64UrlEncodeSpec (sha256 (OAuth2Auth.generatePKCE rnd sha256).1))
    ∧ 43 ≤ (OAuth2Auth.generatePKCE rnd sha256).1.length
    ∧ (OAuth2Auth.generatePKCE rnd sha256).1.length ≤ 128
    ∧ ∀ c ∈ (OAuth2Auth.generatePKCE rnd sha256).1.toList, unreservedChar c = true := by
  refine ⟨?_, ?_, ?_, ?_⟩
  · show String.mk (base64UrlOfChars (b64EncodeBytes _)) = _
    exact congrArg String.mk (base64UrlOfChars_b64EncodeBytes _ hsha)
  · show 43 ≤ (hexEncode rnd).length
    simp only [hexEncode, String.length, String.data]
    rw [hexFlatten_length, hlen]
    norm_num
  · show (hexEncode rnd).length ≤ 128
    simp only [hexEncode, String.length, String.data]
    rw [hexFlatten_length, hlen]
    norm_num
  · show ∀ c ∈ (hexEncode rnd).toList, unreservedChar c = true
    simpa [hexEncode, String.toList] using hexFlatten_unreserved rnd

theorem generatePKCE_spec_witness :
    (OAuth2Auth.generatePKCE (List.replicate 32 171) (fun _ => [3, 200, 77])).2 =
      String.mk (base64UrlEncodeSpec
        ((fun _ : String => [3, 200, 77]) (OAuth2Auth.generatePKCE
          (List.replicate 32 171) (fun _ => [3, 200, 77])).1))
    ∧ 43 ≤ (OAuth2Auth.generatePKCE (List.replicate 32 171) (fun _ => [3, 200, 77])).1.length
    ∧ (OAuth2Auth.generatePKCE (List.replicate 32 171) (fun _ => [3, 200, 77])).1.length ≤ 128
    ∧ ∀ c ∈ (OAuth2Auth.generatePKCE
        (List.replicate 32 171) (fun _ => [3, 200, 77])).1.toList, unreservedChar c = true :=
  generatePKCE_spec (List.replicate 32 171) (fun _ => [3, 200, 77])
    (by decide) (by decide)

/-! ## OAuth2Auth: provider registry, authorization start, callback handling

The three localStorage slots the module uses (oauth2_state,
oauth2_code_verifier, oauth2_provider) become fields of OAuth2Storage.
The provider registry (a Map in the source) is an association list.
window.location.search becomes an explicit CallbackParams record. -/

/-- The localStorage slots written and read by the OAuth2 module. -/
structure OAuth2Storage where
  oauth2_state : Option String
  oauth2_code_verifier : Option String
  oauth2_provider : Option String
deriving DecidableEq, Repr

/-- A registered provider entry, as built by registerProvider. -/
structure OAuth2Provider where
  name : String
  clientId : String
  authUrl : String
  tokenUrl : String
  scope : String
  redirectUri : String
  responseMode : Option String
deriving DecidableEq, Repr

/-- Query parameters of the OAuth2 callback URL; absent parameters are
none, matching URLSearchParams.get returning null. -/
structure CallbackParams where
  code : Option String
  state : Option String
  error : Option String
  error_description : Option String
deriving DecidableEq, Repr

/-- Token payload returned by the demo exchange. -/
structure TokenData where
  access_token : String
  token_type : String
  expires_in : Nat
  scope : String
deriving DecidableEq, Repr

/-- Mock user record returned by getUserInfo. -/
structure OAuth2UserInfo where
  id : String
  email : String
  name : String
  provider : String
  verified : Bool
deriving DecidableEq, Repr

/-- Successful callback payload. -/
structure CallbackSuccess where
  success : Bool
  provider : String
  user : OAuth2UserInfo
  tokens : TokenData
deriving DecidableEq, Repr

/-- Errors thrown by handleCallback, by throw site. -/
inductive OAuth2Err where
  | oauthError (code : String) (description : Option String)
  | invalidState
  | providerNotFound
deriving DecidableEq, Repr

/-- OAuth2Auth.storeState. -/
def OAuth2Auth.storeState (st : OAuth2Storage) (s : String) : OAuth2Storage :=
  { st with oauth2_state := some s }

/-- OAuth2Auth.getStoredState. -/
def OAuth2Auth.getStoredState (st : OAuth2Storage) : Option String :=
  st.oauth2_state

/-- OAuth2Auth.clearStoredState. -/
def OAuth2Auth.clearStoredState (st : OAuth2Storage) : OAuth2Storage :=
  { st with oauth2_state := none }

/-- OAuth2Auth.storeCodeVerifier. -/
def OAuth2Auth.storeCodeVerifier (st : OAuth2Storage) (v : String) : OAuth2Storage :=
  { st with oauth2_code_verifier := some v }

/-- OAuth2Auth.clearCodeVerifier. -/
def OAuth2Auth.clearCodeVerifier (st : OAuth2Storage) : OAuth2Storage :=
  { st with oauth2_code_verifier := none }

/-- OAuth2Auth.authenticate: look up the provider, persist the freshly
generated CSRF state and PKCE code verifier, and record the provider
name.  state and codeVerifier stand for the random values produced by
generateState / generatePKCE at this call; building the authorization
URL and the redirect are browser navigation effects outside the
storage model. -/
def OAuth2Auth.authenticate (providers : List (String × OAuth2Provider))
    (st : OAuth2Storage) (providerName state codeVerifier : String) :
    Except String OAuth2Storage :=
  match providers.lookup providerName with
  | none => .error ("Provider " ++ providerName ++ " not found")
  | some _ =>
      let st1 := OAuth2Auth.storeState st state
      let st2 := OAuth2Auth.storeCodeVerifier st1 codeVerifier
      .ok { st2 with oauth2_provider := some providerName }

/-- OAuth2Auth.exchangeCodeForToken: the demo exchange, which fabricates
a token from the current time without a network call. -/
def OAuth2Auth.exchangeCodeForToken (provider : OAuth2Provider)
    (code : Option String) (now : Nat) : TokenData :=
  { access_token := "demo_access_token_" ++ toString now
    token_type := "Bearer"
    expires_in := 3600
    scope := provider.scope }

/-- OAuth2Auth.getUserInfo: the demo implementation returns fixed mock
user data tagged with the provider name. -/
def OAuth2Auth.getUserInfo (providerName : String) (accessToken : String) :
    OAuth2UserInfo :=
  { id := "demo_user_id"
    email := "user@example.com"
    name := "Demo User"
    provider := providerName
    verified := true }

/-- OAuth2Auth.handleCallback: error parameter check, CSRF state check,
provider lookup, token exchange, user info, cleanup.  The exchange step
is an explicit function argument (instantiated with
OAuth2Auth.exchangeCodeForToken in the source), so a theorem that holds
for every exchange function shows the exchange is not consulted. -/
def OAuth2Auth.handleCallback
    (exchange : OAuth2Provider → Option String → Nat → TokenData)
    (providers : List (String × OAuth2Provider))
    (st : OAuth2Storage) (p : CallbackParams) (now : Nat) :
    Except OAuth2Err (CallbackSuccess × OAuth2Storage) :=
  match p.error with
  | some e => .error (.oauthError e p.error_description)
  | none =>
      if p.state ≠ OAuth2Auth.getStoredState st then .error .invalidState
      else
        match st.oauth2_provider with
        | none => .error .providerNotFound
        | some providerName =>
            match providers.lookup providerName with
            | none => .error .providerNotFound
            | some provider =>
                let tokenData := exchange provider p.code now
                let userInfo := OAuth2Auth.getUserInfo providerName tokenData.access_token
                let cleaned := { OAuth2Auth.clearCodeVerifier
                    (OAuth2Auth.clearStoredState st) with oauth2_provider := none }
                .ok ({ success := true, provider := providerName,
                       user := userInfo, tokens := tokenData }, cleaned)

/-- A state mismatch on an error-free callback is rejected with the
invalid-state error, whatever the exchange function. -/
theorem handleCallback_state_mismatch
    (exchange : OAuth2Provider → Option String → Nat → TokenData)
    (providers : List (String × OAuth2Provider))
    (st : OAuth2Storage) (p : CallbackParams) (now : Nat)
    (herr : p.error = none)
    (hstate : p.state ≠ OAuth2Auth.getStoredState st) :
    OAuth2Auth.handleCallback exchange providers st p now = .error .invalidState := by
  unfold OAuth2Auth.handleCallback
  rw [herr]
  simp [hstate]

/-- C1 (amended): for every callback that carries no error parameter,
if the state parameter differs from the stored pending state (including
when no pending state is stored), handleCallback fails with the
invalid-state CSRF error, for every exchange function, so no token
exchange is invoked. -/
theorem handleCallback_csrf
    (exchange : OAuth2Provider → Option String → Nat → TokenData)
    (providers : List (String × OAuth2Provider))
    (st : OAuth2Storage) (p : CallbackParams) (now : Nat)
    (herr : p.error = none)
    (hstate : p.state ≠ OAuth2Auth.getStoredState st) :
    OAuth2Auth.handleCallback exchange providers st p now = .error .invalidState :=
  handleCallback_state_mismatch exchange providers st p now herr hstate

theorem handleCallback_csrf_witness :
    ((⟨some "x", some "wrong", none, none⟩ : CallbackParams).error = none
      ∧ (⟨some "x", some "wrong", none, none⟩ : CallbackParams).state ≠
          OAuth2Auth.getStoredState ⟨some "right", some "v", some "google"⟩)
    ∧ OAuth2Auth.handleCallback OAuth2Auth.exchangeCodeForToken []
        ⟨some "right", some "v", some "google"⟩
        ⟨some "x", some "wrong", none, none⟩ 0 = .error .invalidState :=
  ⟨⟨rfl, by decide⟩,
    handleCallback_csrf OAuth2Auth.exchangeCodeForToken []
      ⟨some "right", some "v", some "google"⟩
      ⟨some "x", some "wrong", none, none⟩ 0 rfl (by decide)⟩

/-- C1 counterexample to the claim as stated: a callback whose state
parameter mismatches the stored state but which also carries an error
parameter fails with the provider error, not with the CSRF error, because
handleCallback checks the error parameter first. -/
theorem handleCallback_error_first_counterexample :
    ((⟨some "x", some "wrong", some "access_denied", none⟩ : CallbackParams).state ≠
        OAuth2Auth.getStoredState ⟨some "right", none, none⟩)
    ∧ OAuth2Auth.handleCallback OAuth2Auth.exchangeCodeForToken []
        ⟨some "right", none, none⟩
        ⟨some "x", some "wrong", some "access_denied", none⟩ 0 =
        .error (.oauthError "access_denied" none)
    ∧ (OAuth2Err.oauthError "access_denied" none ≠ OAuth2Err.invalidState) :=
  ⟨by decide, rfl, by decide⟩

/-- C6: the OAuth2 module keeps a single pending ceremony: a second
authenticate call before the callback silently replaces the stored
state, code verifier and provider, and afterwards only the most recent
state passes the callback CSRF check (the superseded state is rejected,
and the provider lookup of the most recent ceremony succeeds). -/
theorem authenticate_single_pending_ceremony
    (providers : List (String × OAuth2Provider)) (st0 st1 st2 : OAuth2Storage)
    (p1 p2 s1 v1 s2 v2 : String)
    (h1 : OAuth2Auth.authenticate providers st0 p1 s1 v1 = .ok st1)
    (h2 : OAuth2Auth.authenticate providers st1 p2 s2 v2 = .ok st2) :
    st2.oauth2_state = some s2
    ∧ st2.oauth2_code_verifier = some v2
    ∧ st2.oauth2_provider = some p2
    ∧ (∀ exchange p now, CallbackParams.error p = none → CallbackParams.state p = some s1 →
        s1 ≠ s2 →
        OAuth2Auth.handleCallback exchange providers st2 p now = .error .invalidState)
    ∧ (∀ exchange p now, CallbackParams.error p = none → CallbackParams.state p = some s2 →
        ∃ r, OAuth2Auth.handleCallback exchange providers st2 p now = .ok r) := by
  unfold OAuth2Auth.authenticate at h1 h2
  cases hl1 : providers.lookup p1 with
  | none => rw [hl1] at h1; exact absurd h1 (by simp)
  | some prov1 =>
    rw [hl1] at h1
    cases hl2 : providers.lookup p2 with
    | none => rw [hl2] at h2; exact absurd h2 (by simp)
    | some prov2 =>
      rw [hl2] at h2
      simp only [OAuth2Auth.storeState, OAuth2Auth.storeCodeVerifier,
        Except.ok.injEq] at h1 h2
      subst h1
      subst h2
      refine ⟨rfl, rfl, rfl, ?_, ?_⟩
      · intro exchange p now herr hstate hne
        refine handleCallback_state_mismatch exchange providers _ p now herr ?_
        rw [hstate]
        simp only [OAuth2Auth.getStoredState]
        simp [hne]
      · intro exchange p now herr hstate
        unfold OAuth2Auth.handleCallback
        rw [herr]
        simp only [OAuth2Auth.getStoredState, hstate]
        simp [hl2]

theorem authenticate_single_pending_ceremony_witness :
    ((⟨none, none, none⟩ : OAuth2Storage).oauth2_state = none
      ∧ OAuth2Auth.authenticate [("google", ⟨"Google", "cid", "a", "t", "sc", "r", none⟩)]
          ⟨none, none, none⟩ "google" "s1" "v1" = .ok ⟨some "s1", some "v1", some "google"⟩
      ∧ OAuth2Auth.authenticate [("google", ⟨"Google", "cid", "a", "t", "sc", "r", none⟩)]
          ⟨some "s1", some "v1", some "google"⟩ "google" "s2" "v2" =
          .ok ⟨some "s2", some "v2", some "google"⟩)
    ∧ OAuth2Auth.handleCallback OAuth2Auth.exchangeCodeForToken
        [("google", ⟨"Google", "cid", "a", "t", "sc", "r", none⟩)]
        ⟨some "s2", some "v2", some "google"⟩ ⟨some "c", some "s1", none, none⟩ 0 =
        .error .invalidState
    ∧ ∃ r, OAuth2Auth.handleCallback OAuth2Auth.exchangeCodeForToken
        [("google", ⟨"Google", "cid", "a", "t", "sc", "r", none⟩)]
        ⟨some "s2", some "v2", some "google"⟩ ⟨some "c", some "s2", none, none⟩ 0 = .ok r :=
  ⟨⟨rfl, rfl, rfl⟩,
    (authenticate_single_pending_ceremony
      [("google", ⟨"Google", "cid", "a", "t", "sc", "r", none⟩)]
      ⟨none, none, none⟩ ⟨some "s1", some "v1", some "google"⟩
      ⟨some "s2", some "v2", some "google"⟩
      "google" "google" "s1" "v1" "s2" "v2" rfl rfl).2.2.2.1
      OAuth2Auth.exchangeCodeForToken ⟨some "c", some "s1", none, none⟩ 0
      rfl rfl (by decide),
    (authenticate_single_pending_ceremony
      [("google", ⟨"Google", "cid", "a", "t", "sc", "r", none⟩)]
      ⟨none, none, none⟩ ⟨some "s1", some "v1", some "google"⟩
      ⟨some "s2", some "v2", some "google"⟩
      "google" "google" "s1" "v1" "s2" "v2" rfl rfl).2.2.2.2
      OAuth2Auth.exchangeCodeForToken ⟨some "c", some "s2", none, none⟩ 0
      rfl rfl⟩

/-! ## AuthManager: sessions and rate limiting

The rateLimiter Map becomes an association list with Map-equivalent
lookup, set and delete; the session localStorage slot becomes an
Option SessionData threaded through the functions that touch it.
The relevant configuration fields are collected in AMConfig. -/

/-- One rateLimiter entry: attempt count and window start. -/
structure RateEntry where
  count : Nat
  timestamp : Nat
deriving DecidableEq, Repr

/-- Map.get on the association-list model of the rateLimiter. -/
def rlGet (m : List (String × RateEntry)) (key : String) : Option RateEntry :=
  m.lookup key

/-- Map.set: replace any binding for the key.  The representation
differs from a Map only in binding order, which lookup cannot observe. -/
def rlSet (m : List (String × RateEntry)) (key : String) (v : RateEntry) :
    List (String × RateEntry) :=
  (key, v) :: m.filter fun e => e.1 ≠ key

/-- Map.delete. -/
def rlDelete (m : List (String × RateEntry)) (key : String) :
    List (String × RateEntry) :=
  m.filter fun e => e.1 ≠ key

/-- The configuration fields AuthManager reads: the security.rateLimit
block (with defaults applied by setupRateLimiting) and the local token
expiry used by createSession. -/
structure AMConfig where
  rateLimitEnabled : Bool
  maxAttempts : Nat
  windowMs : Nat
  tokenExpiry : Nat
deriving DecidableEq, Repr

/-- The session record persisted under the session key; the user object
is abstracted to its username. -/
structure SessionData where
  user : Option String
  loginTime : Nat
  expiry : Nat
deriving DecidableEq, Repr

/-- AuthManager.createSession. -/
def AuthManager.createSession (cfg : AMConfig) (user : Option String) (now : Nat) :
    SessionData :=
  { user := user, loginTime := now, expiry := now + cfg.tokenExpiry }

/-- AuthManager.logout: removes the stored session (the page redirect is
a navigation effect outside the storage model). -/
def AuthManager.logout (store : Option SessionData) : Option SessionData :=
  none

/-- AuthManager.checkSession: false when no session is stored; when the
stored expiry is strictly before now, logs out (destroying the record)
and returns false; otherwise true.  Returns the validity next to the
resulting stored record. -/
def AuthManager.checkSession (store : Option SessionData) (now : Nat) :
    Bool × Option SessionData :=
  match store with
  | none => (false, none)
  | some s => if s.expiry < now then (false, AuthManager.logout store) else (true, store)

/-- AuthManager.getSession: parses and returns the stored record as is;
no expiry check and no write.  Returns the result next to the (unchanged)
stored record. -/
def AuthManager.getSession (store : Option SessionData) :
    Option SessionData × Option SessionData :=
  (store, store)

/-- AuthManager.checkRateLimit: true when rate limiting is disabled;
clears the entry and allows when its window has expired; otherwise
allows while the count is below maxAttempts.  Returns the decision next
to the resulting rateLimiter map. -/
def AuthManager.checkRateLimit (cfg : AMConfig) (m : List (String × RateEntry))
    (method : String) (now : Nat) : Bool × List (String × RateEntry) :=
  if cfg.rateLimitEnabled = false then (true, m)
  else
    let key := "ratelimit_" ++ method
    let attempts := (rlGet m key).getD { count := 0, timestamp := now }
    if now - attempts.timestamp > cfg.windowMs then (true, rlDelete m key)
    else (decide (attempts.count < cfg.maxAttempts), m)

/-- AuthManager.incrementRateLimit: no-op when rate limiting is
disabled; otherwise create the entry at count 1 with window start now,
or increment the existing count keeping its stored window start. -/
def AuthManager.incrementRateLimit (cfg : AMConfig) (m : List (String × RateEntry))
    (method : String) (now : Nat) : List (String × RateEntry) :=
  if cfg.rateLimitEnabled = false then m
  else
    let key := "ratelimit_" ++ method
    let attempts := (rlGet m key).getD { count := 0, timestamp := now }
    rlSet m key { count := attempts.count + 1, timestamp := attempts.timestamp }

/-- AuthManager.resetRateLimit. -/
def AuthManager.resetRateLimit (m : List (String × RateEntry)) (method : String) :
    List (String × RateEntry) :=
  rlDelete m ("ratelimit_" ++ method)

/-- Errors surfaced by AuthManager.authenticate: the rate-limit throw
(Too many attempts) and any error thrown by a strategy. -/
inductive AuthError where
  | rateLimited
  | err (msg : String)
deriving DecidableEq, Repr

/-- Result object returned by a strategy, abstracted to its success
flag and username. -/
structure AuthResult where
  success : Bool
  user : Option String
deriving DecidableEq, Repr

/-- The mutable state AuthManager owns: the rateLimiter map and the
session slot. -/
structure AMState where
  rateLimiter : List (String × RateEntry)
  session : Option SessionData
deriving DecidableEq, Repr

/-- AuthManager.authenticate: consult the rate limit (throwing before
the try block, so a denial touches nothing), run the dispatched
strategy (its outcome is the strategy argument: the switch dispatches to
authenticateLocal / authenticateWebAuthn / authenticateOAuth2), reset
the limiter and create a session on success, increment the limiter and
rethrow the same error on failure. -/
def AuthManager.authenticate (cfg : AMConfig) (st : AMState) (method : String)
    (now : Nat) (strategy : Except AuthError AuthResult)
    (credUsername : Option String) : Except AuthError AuthResult × AMState :=
  let chk := AuthManager.checkRateLimit cfg st.rateLimiter method now
  if chk.1 = false then (.error .rateLimited, { st with rateLimiter := chk.2 })
  else
    match strategy with
    | .error e =>
        (.error e,
          { st with rateLimiter := AuthManager.incrementRateLimit cfg chk.2 method now })
    | .ok r =>
        let m2 := AuthManager.resetRateLimit chk.2 method
        if r.success then
          (.ok r,
            { rateLimiter := m2,
              session := some (AuthManager.createSession cfg
                (match r.user with | some u => some u | none => credUsername) now) })
        else (.ok r, { st with rateLimiter := m2 })

/-- Map.set followed by Map.get on the same key yields the set value. -/
theorem rlGet_rlSet_self (m : List (String × RateEntry)) (key : String) (v : RateEntry) :
    rlGet (rlSet m key v) key = some v := by
  simp [rlGet, rlSet, List.lookup]

/-- C2 counterexample to the claim as stated: for a stored session whose
expiry is already past, getSession still returns the record and leaves
it stored — the session read performs no expiry check and has no side
effect (only checkSession destroys expired records). -/
theorem getSession_expired_counterexample :
    (⟨some "u", 0, 5⟩ : SessionData).expiry ≤ 6
    ∧ AuthManager.getSession (some ⟨some "u", 0, 5⟩) =
        (some ⟨some "u", 0, 5⟩, some ⟨some "u", 0, 5⟩)
    ∧ (AuthManager.getSession (some ⟨some "u", 0, 5⟩)).1 ≠ none := by
  refine ⟨by norm_num, rfl, by simp [AuthManager.getSession]⟩

/-- C2 (amended): for every stored session whose expiry is strictly
before the current time, checkSession returns false and destroys the
record as a side effect, while getSession returns the stored record
unchanged with no expiry check and no side effect. -/
theorem session_expiry_spec (s : SessionData) (now : Nat) (h : s.expiry < now) :
    AuthManager.checkSession (some s) now = (false, none)
    ∧ AuthManager.getSession (some s) = (some s, some s) := by
  constructor
  · simp [AuthManager.checkSession, AuthManager.logout, h]
  · rfl

theorem session_expiry_spec_witness :
    (⟨some "u", 0, 5⟩ : SessionData).expiry < 6
    ∧ AuthManager.checkSession (some ⟨some "u", 0, 5⟩) 6 = (false, none)
    ∧ AuthManager.getSession (some ⟨some "u", 0, 5⟩) =
        (some ⟨some "u", 0, 5⟩, some ⟨some "u", 0, 5⟩) :=
  ⟨by norm_num,
    (session_expiry_spec ⟨some "u", 0, 5⟩ 6 (by norm_num)).1,
    (session_expiry_spec ⟨some "u", 0, 5⟩ 6 (by norm_num)).2⟩

/-- incrementRateLimit, described through the map: when enabled, the
binding of the method key afterwards carries count getD-zero plus one
and the previous window start (or now for a fresh entry). -/
theorem incrementRateLimit_get (cfg : AMConfig) (m : List (String × RateEntry))
    (method : String) (now : Nat) (h : cfg.rateLimitEnabled = true) :
    rlGet (AuthManager.incrementRateLimit cfg m method now) ("ratelimit_" ++ method) =
      some { count := ((rlGet m ("ratelimit_" ++ method)).getD
                { count := 0, timestamp := now }).count + 1,
             timestamp := ((rlGet m ("ratelimit_" ++ method)).getD
                { count := 0, timestamp := now }).timestamp } := by
  unfold AuthManager.incrementRateLimit
  rw [if_neg (by simp [h])]
  exact rlGet_rlSet_self _ _ _

/-- C3 counterexample to the claim as stated: with an entry whose window
has expired at the time of the failure (window 10 ms, entry started at
0, failure at 11), recordFailure increments the stale counter from 3 to
4 and keeps the old window start, instead of resetting the count to 1
with a fresh window start. -/
theorem incrementRateLimit_stale_counterexample :
    ((11 : Nat) - (0 : Nat) > (10 : Nat))
    ∧ rlGet (AuthManager.incrementRateLimit ⟨true, 5, 10, 0⟩
        [("ratelimit_local", ⟨3, 0⟩)] "local" 11) "ratelimit_local" = some ⟨4, 0⟩
    ∧ (some (⟨4, 0⟩ : RateEntry) ≠ some (⟨1, 11⟩ : RateEntry)) := by
  refine ⟨by norm_num, by decide, by decide⟩

/-- C3 (amended): when rate limiting is enabled, recording a failure
creates the entry at count 1 with window start now, or increments the
existing entry's count by one keeping its stored window start — even if
that window has already expired; expired windows are cleared by the
allow check (checkRateLimit), not by the failure recording. -/
theorem incrementRateLimit_spec (cfg : AMConfig) (m : List (String × RateEntry))
    (method : String) (now : Nat) (h : cfg.rateLimitEnabled = true) :
    (rlGet m ("ratelimit_" ++ method) = none →
      rlGet (AuthManager.incrementRateLimit cfg m method now) ("ratelimit_" ++ method) =
        some { count := 1, timestamp := now })
    ∧ ∀ e, rlGet m ("ratelimit_" ++ method) = some e →
        rlGet (AuthManager.incrementRateLimit cfg m method now) ("ratelimit_" ++ method) =
          some { count := e.count + 1, timestamp := e.timestamp } := by
  constructor
  · intro hnone
    rw [incrementRateLimit_get cfg m method now h, hnone]
    rfl
  · intro e he
    rw [incrementRateLimit_get cfg m method now h, he]
    rfl

theorem incrementRateLimit_spec_witness :
    ((⟨true, 5, 900000, 0⟩ : AMConfig).rateLimitEnabled = true
      ∧ rlGet ([] : List (String × RateEntry)) ("ratelimit_" ++ "local") = none
      ∧ rlGet [("ratelimit_local", ⟨2, 7⟩)] ("ratelimit_" ++ "local") = some ⟨2, 7⟩)
    ∧ rlGet (AuthManager.incrementRateLimit ⟨true, 5, 900000, 0⟩ [] "local" 42)
        ("ratelimit_" ++ "local") = some { count := 1, timestamp := 42 }
    ∧ rlGet (AuthManager.incrementRateLimit ⟨true, 5, 900000, 0⟩
        [("ratelimit_local", ⟨2, 7⟩)] "local" 42)
        ("ratelimit_" ++ "local") = some { count := 3, timestamp := 7 } :=
  ⟨⟨rfl, rfl, by decide⟩,
    (incrementRateLimit_spec ⟨true, 5, 900000, 0⟩ [] "local" 42 rfl).1 rfl,
    (incrementRateLimit_spec ⟨true, 5, 900000, 0⟩ [("ratelimit_local", ⟨2, 7⟩)]
      "local" 42 rfl).2 ⟨2, 7⟩ (by decide)⟩

/-- A rate-limit denial has no storage side effect: when checkRateLimit
answers false it took the unexpired branch, which leaves the map alone. -/
theorem checkRateLimit_false_state (cfg : AMConfig) (m : List (String × RateEntry))
    (method : String) (now : Nat)
    (h : (AuthManager.checkRateLimit cfg m method now).1 = false) :
    (AuthManager.checkRateLimit cfg m method now).2 = m := by
  unfold AuthManager.checkRateLimit at h ⊢
  by_cases he : cfg.rateLimitEnabled = false
  · simp [he] at h
  · rw [if_neg he] at h ⊢
    by_cases hw : now - ((rlGet m ("ratelimit_" ++ method)).getD
        { count := 0, timestamp := now }).timestamp > cfg.windowMs
    · simp [hw] at h
    · simp [hw]

/-- C5: a rate-limit denial fails with the rate-limited error and leaves
the state (in particular the method's failure counter) untouched, and the
strategy is never consulted; every strategy failure is rethrown as the
identical error with the failure recording applied to the limiter, and
when rate limiting is enabled the method's counter grows by exactly one. -/
theorem authenticate_failure_policy (cfg : AMConfig) (st : AMState) (method : String)
    (now : Nat) (strategy : Except AuthError AuthResult) (credUsername : Option String) :
    ((AuthManager.checkRateLimit cfg st.rateLimiter method now).1 = false →
      AuthManager.authenticate cfg st method now strategy credUsername =
        (.error .rateLimited, st))
    ∧ (∀ e, (AuthManager.checkRateLimit cfg st.rateLimiter method now).1 = true →
        strategy = .error e →
        AuthManager.authenticate cfg st method now strategy credUsername =
          (.error e, { st with rateLimiter := (AuthManager.incrementRateLimit cfg
              (AuthManager.checkRateLimit cfg st.rateLimiter method now).2 method now) }))
    ∧ (∀ e, cfg.rateLimitEnabled = true →
        (AuthManager.checkRateLimit cfg st.rateLimiter method now).1 = true →
        strategy = .error e →
        ((rlGet (AuthManager.authenticate cfg st method now strategy
              credUsername).2.rateLimiter ("ratelimit_" ++ method)).map
            RateEntry.count).getD 0 =
          ((rlGet ((AuthManager.checkRateLimit cfg st.rateLimiter method now).2)
              ("ratelimit_" ++ method)).map RateEntry.count).getD 0 + 1) := by
  refine ⟨?_, ?_, ?_⟩
  · intro hfalse
    have hstate := checkRateLimit_false_state cfg st.rateLimiter method now hfalse
    unfold AuthManager.authenticate
    rw [if_pos hfalse, hstate]
  · intro e htrue hstrat
    unfold AuthManager.authenticate
    rw [hstrat, if_neg (by rw [htrue]; simp)]
  · intro e hen htrue hstrat
    have heq : AuthManager.authenticate cfg st method now strategy credUsername =
        (.error e, { st with rateLimiter := (AuthManager.incrementRateLimit cfg
            (AuthManager.checkRateLimit cfg st.rateLimiter method now).2 method now) }) := by
      unfold AuthManager.authenticate
      rw [hstrat, if_neg (by rw [htrue]; simp)]
    rw [heq]
    rw [incrementRateLimit_get cfg _ method now hen]
    cases hget : rlGet ((AuthManager.checkRateLimit cfg st.rateLimiter method now).2)
        ("ratelimit_" ++ method) with
    | none => simp [hget]
    | some entry => simp [hget]

theorem authenticate_failure_policy_witness :
    ((AuthManager.checkRateLimit ⟨true, 5, 900000, 0⟩
        (AMState.rateLimiter ⟨[("ratelimit_local", ⟨5, 10⟩)], none⟩) "local" 11).1 = false
      ∧ AuthManager.authenticate ⟨true, 5, 900000, 0⟩
          ⟨[("ratelimit_local", ⟨5, 10⟩)], none⟩ "local" 11
          (.error (.err "Invalid username or password")) none =
          (.error .rateLimited, ⟨[("ratelimit_local", ⟨5, 10⟩)], none⟩))
    ∧ ((AuthManager.checkRateLimit ⟨true, 5, 900000, 0⟩
        (AMState.rateLimiter ⟨[], none⟩) "local" 11).1 = true
      ∧ AuthManager.authenticate ⟨true, 5, 900000, 0⟩ ⟨[], none⟩ "local" 11
          (.error (.err "Invalid username or password")) none =
          (.error (.err "Invalid username or password"),
            { rateLimiter := (AuthManager.incrementRateLimit ⟨true, 5, 900000, 0⟩
                (AuthManager.checkRateLimit ⟨true, 5, 900000, 0⟩
                  (AMState.rateLimiter ⟨[], none⟩) "local" 11).2 "local" 11),
              session := none })
      ∧ ((rlGet (AuthManager.authenticate ⟨true, 5, 900000, 0⟩ ⟨[], none⟩ "local" 11
            (.error (.err "Invalid username or password")) none).2.rateLimiter
            ("ratelimit_" ++ "local")).map RateEntry.count).getD 0 =
          ((rlGet ((AuthManager.checkRateLimit ⟨true, 5, 900000, 0⟩
            (AMState.rateLimiter ⟨[], none⟩) "local" 11).2)
            ("ratelimit_" ++ "local")).map RateEntry.count).getD 0 + 1) :=
  ⟨⟨by decide,
    (authenticate_failure_policy ⟨true, 5, 900000, 0⟩ ⟨[("ratelimit_local", ⟨5, 10⟩)], none⟩
      "local" 11 (.error (.err "Invalid username or password")) none).1 (by decide)⟩,
   ⟨by decide,
    (authenticate_failure_policy ⟨true, 5, 900000, 0⟩ ⟨[], none⟩
      "local" 11 (.error (.err "Invalid username or password")) none).2.1
      (.err "Invalid username or password") (by decide) rfl,
    (authenticate_failure_policy ⟨true, 5, 900000, 0⟩ ⟨[], none⟩
      "local" 11 (.error (.err "Invalid username or password")) none).2.2
      (.err "Invalid username or password") rfl (by decide) rfl⟩⟩

/-- The configuration named by the rate-limiting property: enabled,
maxAttempts 5, windowMs 900000 (and the default token expiry). -/
def rateLimitTestConfig : AMConfig :=
  { rateLimitEnabled := true, maxAttempts := 5, windowMs := 900000,
    tokenExpiry := 86400000 }

/-- A run of failed authenticate calls for the local method, one per
listed time, threading the AuthManager state through. -/
def failedLocalAttempts : AMState → List Nat → AMState
  | st, [] => st
  | st, t :: ts =>
      failedLocalAttempts
        (AuthManager.authenticate rateLimitTestConfig st "local" t
          (.error (.err "Invalid username or password")) none).2 ts

/-- A failed attempt on an empty limiter creates the entry at count 1
with window start at the attempt time. -/
theorem failedAttempt_empty (s : Option SessionData) (t : Nat) (e : AuthError) :
    (AuthManager.authenticate rateLimitTestConfig ⟨[], s⟩ "local" t
        (.error e) none).2 = ⟨[("ratelimit_local", ⟨1, t⟩)], s⟩ := by
  simp [AuthManager.authenticate, AuthManager.checkRateLimit,
    AuthManager.incrementRateLimit, rateLimitTestConfig, rlGet, rlSet, rlDelete,
    List.lookup, Nat.sub_self]

/-- A failed attempt within the window of an entry below the limit
increments the count and keeps the window start. -/
theorem failedAttempt_step (s : Option SessionData) (c t1 t : Nat) (e : AuthError)
    (hc : c < 5) (ht : t - t1 ≤ 900000) :
    (AuthManager.authenticate rateLimitTestConfig
        ⟨[("ratelimit_local", ⟨c, t1⟩)], s⟩ "local" t (.error e) none).2 =
      ⟨[("ratelimit_local", ⟨c + 1, t1⟩)], s⟩ := by
  have hw : ¬ (t - t1 > 900000) := by omega
  simp [AuthManager.authenticate, AuthManager.checkRateLimit,
    AuthManager.incrementRateLimit, rateLimitTestConfig, rlGet, rlSet, rlDelete,
    List.lookup, hw, hc]

/-- C7: with rate limiting enabled at maxAttempts 5 and windowMs 900000,
five consecutive failed local attempts inside one window leave the entry
at count 5 with the window start of the first failure; afterwards allow
is false at any time within windowMs of the window start, and at any
time strictly beyond it allow is true with the entry cleared, discarding
the prior count. -/
theorem rateLimit_window_spec (t1 t2 t3 t4 t5 : Nat)
    (h12 : t1 ≤ t2) (h23 : t2 ≤ t3) (h34 : t3 ≤ t4) (h45 : t4 ≤ t5)
    (hw : t5 - t1 ≤ 900000) :
    failedLocalAttempts ⟨[], none⟩ [t1, t2, t3, t4, t5] =
      ⟨[("ratelimit_local", ⟨5, t1⟩)], none⟩
    ∧ (∀ t, t - t1 ≤ 900000 →
        AuthManager.checkRateLimit rateLimitTestConfig
          [("ratelimit_local", ⟨5, t1⟩)] "local" t =
          (false, [("ratelimit_local", ⟨5, t1⟩)]))
    ∧ (∀ t, t - t1 > 900000 →
        AuthManager.checkRateLimit rateLimitTestConfig
          [("ratelimit_local", ⟨5, t1⟩)] "local" t = (true, [])) := by
  refine ⟨?_, ?_, ?_⟩
  · simp only [failedLocalAttempts]
    rw [failedAttempt_empty none t1 _]
    rw [failedAttempt_step none 1 t1 t2 _ (by omega) (by omega)]
    rw [failedAttempt_step none 2 t1 t3 _ (by omega) (by omega)]
    rw [failedAttempt_step none 3 t1 t4 _ (by omega) (by omega)]
    rw [failedAttempt_step none 4 t1 t5 _ (by omega) (by omega)]
  · intro t ht
    have hnw : ¬ (t - t1 > 900000) := by omega
    simp [AuthManager.checkRateLimit, rateLimitTestConfig, rlGet, rlDelete,
      List.lookup, hnw]
  · intro t ht
    simp [AuthManager.checkRateLimit, rateLimitTestConfig, rlGet, rlDelete,
      List.lookup, ht]

theorem rateLimit_window_spec_witness :
    failedLocalAttempts ⟨[], none⟩ [0, 1, 2, 3, 4] =
      ⟨[("ratelimit_local", ⟨5, 0⟩)], none⟩
    ∧ AuthManager.checkRateLimit rateLimitTestConfig
        [("ratelimit_local", ⟨5, 0⟩)] "local" 10 =
        (false, [("ratelimit_local", ⟨5, 0⟩)])
    ∧ AuthManager.checkRateLimit rateLimitTestConfig
        [("ratelimit_local", ⟨5, 0⟩)] "local" 900001 = (true, []) :=
  ⟨(rateLimit_window_spec 0 1 2 3 4 (by norm_num) (by norm_num) (by norm_num)
      (by norm_num) (by norm_num)).1,
   (rateLimit_window_spec 0 1 2 3 4 (by norm_num) (by norm_num) (by norm_num)
      (by norm_num) (by norm_num)).2.1 10 (by norm_num),
   (rateLimit_window_spec 0 1 2 3 4 (by norm_num) (by norm_num) (by norm_num)
      (by norm_num) (by norm_num)).2.2 900001 (by norm_num)⟩

/-! ## WebAuthnAuth: registration and authentication ceremonies

navigator.credentials.create and navigator.credentials.get are platform
facilities, passed in as functions over the options records the module
builds; localStorage credential storage is an explicit list. -/

/-- The configuration fields the WebAuthn module reads (all optional,
with the defaults applied at the use sites). -/
structure WebAuthnConfig where
  authenticatorAttachment : Option String
  requireResidentKey : Option Bool
  userVerification : Option String
  timeout : Option Nat
  attestation : Option String
deriving DecidableEq, Repr

/-- The user block of the creation options. -/
structure PubKeyUser where
  id : List Nat
  name : String
  displayName : String
deriving DecidableEq, Repr

/-- The relying-party block of the creation options. -/
structure RpInfo where
  name : String
  id : String
deriving DecidableEq, Repr

/-- The authenticatorSelection block of the creation options. -/
structure AuthenticatorSelection where
  authenticatorAttachment : String
  requireResidentKey : Bool
  userVerification : String
deriving DecidableEq, Repr

/-- publicKeyCredentialCreationOptions as built by register. -/
structure CreationOptions where
  challenge : List Nat
  rp : RpInfo
  user : PubKeyUser
  pubKeyCredParams : List Int
  authenticatorSelection : AuthenticatorSelection
  timeout : Nat
  attestation : String
deriving DecidableEq, Repr

/-- publicKeyCredentialRequestOptions as built by authenticate. -/
structure AssertionOptions where
  challenge : List Nat
  rpId : String
  allowCredentials : List (List Nat)
  timeout : Nat
  userVerification : String
deriving DecidableEq, Repr

/-- The opaque credential returned by navigator.credentials.create. -/
structure CreatedCredential where
  id : String
  rawId : List Nat
  credType : String
  clientDataJSON : List Nat
  attestationObject : List Nat
deriving DecidableEq, Repr

/-- The opaque assertion returned by navigator.credentials.get. -/
structure PlatformAssertion where
  id : String
  rawId : List Nat
  authenticatorData : List Nat
  clientDataJSON : List Nat
  signature : List Nat
  userHandle : Option (List Nat)
deriving DecidableEq, Repr

/-- A credential record stored under the webauthn_credentials key,
binary fields in base64 transport encoding. -/
structure StoredCredential where
  username : String
  id : String
  rawId : String
  credType : String
  clientDataJSON : String
  attestationObject : String
  createdAt : Nat
deriving DecidableEq, Repr

/-- The authentication outcome returned on success. -/
structure WebAuthnOutcome where
  success : Bool
  username : String
  assertionId : String
deriving DecidableEq, Repr

/-- WebAuthnAuth.generateUserId: the TextEncoder UTF-8 bytes of the
username — a pure function of the username. -/
def WebAuthnAuth.generateUserId (username : String) : List Nat :=
  username.toUTF8.toList.map UInt8.toNat

/-- The publicKeyCredentialCreationOptions object register builds before
calling navigator.credentials.create. -/
def WebAuthnAuth.creationOptions (rpName rpId : String) (cfg : WebAuthnConfig)
    (username : String) (challenge : List Nat) : CreationOptions :=
  { challenge := challenge
    rp := { name := rpName, id := rpId }
    user := { id := WebAuthnAuth.generateUserId username,
              name := username, displayName := username }
    pubKeyCredParams := [-7, -257]
    authenticatorSelection :=
      { authenticatorAttachment := cfg.authenticatorAttachment.getD "platform"
        requireResidentKey := cfg.requireResidentKey.getD false
        userVerification := cfg.userVerification.getD "preferred" }
    timeout := cfg.timeout.getD 60000
    attestation := cfg.attestation.getD "none" }

/-- WebAuthnAuth.register: build the creation options from the freshly
generated challenge and the user id derived from the username, run the
platform create call, transport-encode the binary fields, and append the
record to the stored credential list. -/
def WebAuthnAuth.register (supported : Bool) (rpName rpId : String)
    (cfg : WebAuthnConfig) (username : String) (challenge : List Nat)
    (platformCreate : CreationOptions → Except String CreatedCredential)
    (stored : List StoredCredential) (now : Nat) :
    Except String (StoredCredential × List StoredCredential) :=
  if supported = false then .error "WebAuthn is not supported"
  else
    match platformCreate (WebAuthnAuth.creationOptions rpName rpId cfg
        username challenge) with
    | .error e => .error e
    | .ok credential =>
        let credentialData : StoredCredential :=
          { username := username
            id := credential.id
            rawId := WebAuthnAuth.arrayBufferToBase64 credential.rawId
            credType := credential.credType
            clientDataJSON := WebAuthnAuth.arrayBufferToBase64 credential.clientDataJSON
            attestationObject :=
              WebAuthnAuth.arrayBufferToBase64 credential.attestationObject
            createdAt := now }
        .ok (credentialData, stored ++ [credentialData])

/-- WebAuthnAuth.authenticate: fail when unsupported, fail fast when no
credentials are stored, otherwise build the request options (decoding
each stored rawId) and run the platform get call, resolving the username
of the matching stored credential. -/
def WebAuthnAuth.authenticate (supported : Bool) (rpId : String)
    (cfg : WebAuthnConfig) (stored : List StoredCredential) (challenge : List Nat)
    (platformGet : AssertionOptions → Except String PlatformAssertion) :
    Except String WebAuthnOutcome :=
  if supported = false then .error "WebAuthn is not supported"
  else if stored.length = 0 then
    .error "No credentials registered. Please register first."
  else
    let options : AssertionOptions :=
      { challenge := challenge
        rpId := rpId
        allowCredentials := stored.map fun c => WebAuthnAuth.base64ToArrayBuffer c.rawId
        timeout := cfg.timeout.getD 60000
        userVerification := cfg.userVerification.getD "preferred" }
    match platformGet options with
    | .error e => .error e
    | .ok assertion =>
        .ok { success := true
              username := ((stored.find? fun c => c.id == assertion.id).map
                StoredCredential.username).getD "unknown"
              assertionId := assertion.id }

/-- C8: with WebAuthn supported but no registered credentials,
authenticate fails with the no-credentials error; the equation holds for
every challenge and every platform assertion function, so neither a
challenge nor a platform assertion call enters into the result — the
failure is decided before any ceremony starts. -/
theorem authenticate_no_credentials (rpId : String) (cfg : WebAuthnConfig)
    (challenge : List Nat)
    (platformGet : AssertionOptions → Except String PlatformAssertion) :
    WebAuthnAuth.authenticate true rpId cfg [] challenge platformGet =
      .error "No credentials registered. Please register first." :=
  rfl

/-- C9: the user handle is a deterministic function of the username: the
creation options of any two registration calls with the same username —
whatever their challenges, relying-party data and configuration — carry
the same user-handle bytes, namely the UTF-8 encoding computed by
generateUserId. -/
theorem generateUserId_deterministic (username : String)
    (rpName1 rpId1 rpName2 rpId2 : String) (cfg1 cfg2 : WebAuthnConfig)
    (challenge1 challenge2 : List Nat) :
    (WebAuthnAuth.creationOptions rpName1 rpId1 cfg1 username challenge1).user.id =
      (WebAuthnAuth.creationOptions rpName2 rpId2 cfg2 username challenge2).user.id
    ∧ (WebAuthnAuth.creationOptions rpName1 rpId1 cfg1 username challenge1).user.id =
      WebAuthnAuth.generateUserId username :=
  ⟨rfl, rfl⟩
